import Mathlib

/-
  Verification of the zustand-model core (src/index.ts).

  The store state is modelled as a structure with one field per top-level
  concern of the TypeScript state: the caller data fields, the two boolean
  bookkeeping maps (loadingStates, errorsState) and the timestamp map
  (lastUpdatedStates).  JavaScript objects are key/value maps in which a key
  may be absent (undefined), so every map is Option-valued; a missing entry is
  none.  A JavaScript Date is a Nat millisecond timestamp; null is modelled by
  the inner none of an Option Nat, so lastUpdatedStates maps a key to
  none (no entry), some none (entry present, value null) or some (some t).

  Values returned by actions are modelled by JSValue, which keeps exactly the
  distinctions the wrapper code tests with
  typeof result == object, result != null, Array.isArray(result):
  a plain object with its own enumerable string keys, an array, null, and
  any other (primitive) value.
-/

namespace ZustandModel

inductive JSValue where
  | null : JSValue
  | prim : String → JSValue
  | arr : List JSValue → JSValue
  | obj : List (String × JSValue) → JSValue

structure Store where
  data : String → Option JSValue
  loadingStates : String → Option Bool
  errorsState : String → Option Bool
  lastUpdatedStates : String → Option (Option Nat)

/-
  Initial bookkeeping maps, from the three Object.keys(...).reduce calls of
  createModel (index.ts lines 35-48): loadingStates and errorsState hold
  false for every action name, lastUpdatedStates holds null for every key of
  the initial data snapshot.  The snapshot is an association list (a JS
  object literal); actions are given by their list of names.
-/

def initialLoadingStates (actionKeys : List String) : String → Option Bool :=
  fun k => if actionKeys.contains k then some false else none

def initialErrorsState (actionKeys : List String) : String → Option Bool :=
  fun k => if actionKeys.contains k then some false else none

def initialLastUpdatedStates (initialDataState : List (String × JSValue)) :
    String → Option (Option Nat) :=
  fun k => if (List.lookup k initialDataState).isSome then some none else none

/-- The store state right after createModel builds it (index.ts lines 50-59):
data fields from the initial snapshot, bookkeeping maps seeded as above. -/
def initialModelStore (initialDataState : List (String × JSValue))
    (actionKeys : List String) : Store :=
  { data := fun k => List.lookup k initialDataState
    loadingStates := initialLoadingStates actionKeys
    errorsState := initialErrorsState actionKeys
    lastUpdatedStates := initialLastUpdatedStates initialDataState }

/-- The reset closure (index.ts line 58): set(initialDataState) is a zustand
shallow merge of the initial snapshot into the current state, so it rewrites
exactly the data keys of the snapshot and touches nothing else (in
particular none of the bookkeeping maps). -/
def reset (initialDataState : List (String × JSValue)) (s : Store) : Store :=
  { s with data := fun k =>
      match List.lookup k initialDataState with
      | some v => some v
      | none => s.data k }

/-
  The wrapped asynchronous action (index.ts lines 61-97), decomposed into one
  Lean function per set(...) call so that the order of the store updates is
  visible in the composition.
-/

/-- The first, synchronous set of the wrapper (lines 66-69): before awaiting,
loadingStates[key] := true and errorsState[key] := false in one update. -/
def startInvocation (key : String) (s : Store) : Store :=
  { s with
    loadingStates := fun k => if k = key then some true else s.loadingStates k
    errorsState := fun k => if k = key then some false else s.errorsState k }

/-- The merge test of line 73: typeof result == object, not null, not an
array.  Only the obj constructor satisfies it. -/
def isMergeableResult : JSValue → Bool
  | .obj _ => true
  | _ => false

/-- The conditional merge of lines 73-86: when the result is a plain object,
each of its own keys overwrites the matching data field and gets the current
time in lastUpdatedStates; otherwise no set call happens.  now is the
timestamp produced by new Date() during that set. -/
def mergeResultStep (result : JSValue) (now : Nat) (s : Store) : Store :=
  match result with
  | .obj fields =>
    { s with
      data := fun k =>
        match List.lookup k fields with
        | some v => some v
        | none => s.data k
      lastUpdatedStates := fun k =>
        if (List.lookup k fields).isSome then some (some now)
        else s.lastUpdatedStates k }
  | _ => s

/-- A single set of errorsState[key] (line 87 with b = false, line 90 with
b = true). -/
def setErrorFlag (key : String) (b : Bool) (s : Store) : Store :=
  { s with errorsState := fun k => if k = key then some b else s.errorsState k }

/-- The finally set of loadingStates[key] := false (line 93); b kept general
to mirror a single-entry loadingStates update. -/
def setLoadingFlag (key : String) (b : Bool) (s : Store) : Store :=
  { s with loadingStates := fun k => if k = key then some b else s.loadingStates k }

/-- The success path after the await (lines 71-88): conditional merge, then
errorsState[key] := false, then (finally) loadingStates[key] := false. -/
def settleSuccess (key : String) (result : JSValue) (now : Nat) (s : Store) : Store :=
  setLoadingFlag key false (setErrorFlag key false (mergeResultStep result now s))

/-- The failure path (lines 89-94): errorsState[key] := true in the catch,
then (finally) loadingStates[key] := false, and the failure is rethrown. -/
def settleFailure (key : String) (s : Store) : Store :=
  setLoadingFlag key false (setErrorFlag key true s)

/-- One whole invocation of a wrapped asynchronous action, run without
interleaving: the synchronous prefix, then the awaited computation settles
with the given outcome (ok carries the resolved value, error the rejection
value of type ε), then the matching settlement path.  Returns the final
store and what the wrapper itself returns or rethrows to its caller. -/
def wrappedAsyncAction {ε : Type} (key : String) (outcome : Except ε JSValue)
    (now : Nat) (s : Store) : Store × Except ε JSValue :=
  let s1 := startInvocation key s
  match outcome with
  | .ok result => (settleSuccess key result now s1, .ok result)
  | .error e => (settleFailure key s1, .error e)

/-- The original method instrumented with a call log: invoking it appends its
argument to the log and returns the pure outcome g a.  Used to express that
the wrapper calls originalMethod exactly once with the given arguments. -/
def callLogged {α ε : Type} (g : α → Except ε JSValue) (a : α)
    (log : List α) : Except ε JSValue × List α :=
  (g a, log ++ [a])

/-- The wrapped action of lines 65-95 over an instrumented original method:
the one await originalMethod(...args) of line 71 is the one callLogged use
below.  Returns the final store, the value returned or rethrown to the
caller, and the call log of the original method. -/
def wrappedAsyncActionLogged {α ε : Type} (key : String)
    (g : α → Except ε JSValue) (args : α) (now : Nat) (s : Store)
    (log : List α) : Store × Except ε JSValue × List α :=
  let s1 := startInvocation key s
  match callLogged g args log with
  | (.ok result, log1) => (settleSuccess key result now s1, .ok result, log1)
  | (.error e, log1) => (settleFailure key s1, .error e, log1)

/-
  Store assembly (index.ts lines 50-103).  To reason about key collisions the
  assembled top-level state is modelled as a map from key to the kind of
  entry that ends up there; later spreads of the two object literals
  stateWithBase and the final return value win over earlier ones.
-/

inductive StoreEntry where
  | dataVal : JSValue → StoreEntry
  | rawAction : StoreEntry
  | wrappedAction : StoreEntry
  | loadingMapEntry : StoreEntry
  | errorsMapEntry : StoreEntry
  | lastUpdatedMapEntry : StoreEntry
  | resetEntry : StoreEntry

/-- Right-biased overlay of two key maps: the later (extra) spread wins. -/
def overlay (base extra : String → Option StoreEntry) : String → Option StoreEntry :=
  fun k =>
    match extra k with
    | some v => some v
    | none => base k

/-- The four fixed-name properties written after the spreads inside
stateWithBase (lines 55-58). -/
def bookkeepingEntries : String → Option StoreEntry := fun k =>
  if k = "loadingStates" then some .loadingMapEntry
  else if k = "errorsState" then some .errorsMapEntry
  else if k = "lastUpdatedStates" then some .lastUpdatedMapEntry
  else if k = "reset" then some .resetEntry
  else none

/-- stateWithBase (lines 52-59): initial data spread first, then the raw
actions spread, then the four bookkeeping properties. -/
def stateWithBase (initialDataState : List (String × JSValue))
    (actionKeys : List String) : String → Option StoreEntry :=
  overlay
    (overlay (fun k => (List.lookup k initialDataState).map StoreEntry.dataVal)
      (fun k => if actionKeys.contains k then some .rawAction else none))
    bookkeepingEntries

/-- The value returned by storeCreator (lines 99-102): stateWithBase spread
first, then the wrapped actions spread, which therefore wins every
collision. -/
def assembledState (initialDataState : List (String × JSValue))
    (actionKeys : List String) : String → Option StoreEntry :=
  overlay (stateWithBase initialDataState actionKeys)
    (fun k => if actionKeys.contains k then some .wrappedAction else none)

/-
  The freshness hook (index.ts lines 109-133).
-/

structure FreshnessOptions where
  staleTimeMs : Option Nat

/-- The destructuring default of line 120: 5 * 60 * 1000 when options is
absent or carries no staleTimeMs. -/
def resolveStaleTime (options : Option FreshnessOptions) : Nat :=
  match options with
  | some o => o.staleTimeMs.getD (5 * 60 * 1000)
  | none => 5 * 60 * 1000

/-- The body of isDataStale (lines 123-129) as a function of the lastUpdated
value it reads and of the now produced by new Date() at that call: a missing
or null lastUpdated is falsy hence stale; otherwise stale exactly when
now - lastUpdated strictly exceeds staleTimeMs (computed over Int, as JS
number subtraction can go negative). -/
def isDataStaleAt (lastUpdated : Option (Option Nat)) (staleTimeMs : Nat)
    (now : Nat) : Bool :=
  match lastUpdated with
  | some (some t) => decide ((now : Int) - (t : Int) > (staleTimeMs : Int))
  | _ => true

/-- The hook returned by createFreshnessHook (lines 116-132): it reads
lastUpdatedStates[dataKey] once, when the hook runs, and returns the
isDataStale closure (a function of the per-call now) together with that
captured lastUpdated value. -/
def createFreshnessHook (s : Store) (dataKey : String)
    (options : Option FreshnessOptions) : (Nat → Bool) × Option (Option Nat) :=
  let staleTimeMs := resolveStaleTime options
  let lastUpdated := s.lastUpdatedStates dataKey
  (fun now => isDataStaleAt lastUpdated staleTimeMs now, lastUpdated)

/-- Modelled from the spec: the spec of the freshness query states that each
call of the staleness predicate re-reads the current
lastUpdatedStates[fieldKey] from the store at call time; this definition
follows those words (taking the store as it is at predicate-call time) and is
compared against the closure the code actually returns. -/
def specIsStaleRereading (s : Store) (dataKey : String) (staleTimeMs : Nat)
    (now : Nat) : Bool :=
  isDataStaleAt (s.lastUpdatedStates dataKey) staleTimeMs now

/-- A concrete store used to instantiate theorems: one data field page whose
last update happened at time 5. -/
def demoStore : Store :=
  { data := fun k => if k = "page" then some JSValue.null else none
    loadingStates := fun _ => none
    errorsState := fun _ => none
    lastUpdatedStates := fun k => if k = "page" then some (some 5) else none }

/-- C1: for a wrapped asynchronous action whose underlying computation fails,
after settlement the busy flag of that action is false and its error flag is
true, every data field and every lastUpdatedStates entry equals its value
from before the invocation, and the wrapper rethrows the original failure
value unchanged to the caller. -/
theorem claim_C1_failure_path {ε : Type} (key : String) (e : ε) (now : Nat)
    (s : Store) :
    (wrappedAsyncAction key (Except.error e) now s).1.loadingStates key = some false ∧
    (wrappedAsyncAction key (Except.error e) now s).1.errorsState key = some true ∧
    (∀ k, (wrappedAsyncAction key (Except.error e) now s).1.data k = s.data k) ∧
    (∀ k, (wrappedAsyncAction key (Except.error e) now s).1.lastUpdatedStates k
      = s.lastUpdatedStates k) ∧
    (wrappedAsyncAction key (Except.error e) now s).2 = Except.error e := by
  refine ⟨?_, ?_, fun k => ?_, fun k => ?_, rfl⟩ <;>
    simp [wrappedAsyncAction, settleFailure, setErrorFlag, setLoadingFlag,
      startInvocation]

/-- C2: invoking a wrapped asynchronous action runs its synchronous prefix
before first suspending, and that prefix leaves the busy flag of the action
true and its error flag false. -/
theorem claim_C2_sync_prefix (key : String) (s : Store) :
    (startInvocation key s).loadingStates key = some true ∧
    (startInvocation key s).errorsState key = some false := by
  constructor <;> simp [startInvocation]

/-- C10: the wrapper calls the original method exactly once with exactly the
arguments it received (the call log grows by that one entry), and what it
returns or rethrows to the caller is exactly the original outcome, in
particular the resolved value itself on success, whether or not that value is
merged into the store; the store effect agrees with the uninstrumented
wrapper run on that outcome. -/
theorem claim_C10_original_call_passthrough {α ε : Type} (key : String)
    (g : α → Except ε JSValue) (args : α) (now : Nat) (s : Store)
    (log : List α) :
    (wrappedAsyncActionLogged key g args now s log).2.2 = log ++ [args] ∧
    (wrappedAsyncActionLogged key g args now s log).2.1 = g args ∧
    (wrappedAsyncActionLogged key g args now s log).1
      = (wrappedAsyncAction key (g args) now s).1 := by
  cases h : g args <;>
    simp [wrappedAsyncActionLogged, callLogged, wrappedAsyncAction, h]

/-- C3: when a wrapped asynchronous action resolves to a plain object that
carries field k, after settlement the data field k holds the value from the
result and lastUpdatedStates[k] is a timestamp at least the invocation time;
at the snapshot just before the final update the error flag is already false
while the busy flag is still true, and the final state is exactly that
snapshot with the busy flag cleared, so the busy flag is cleared last; in the
final state both flags are false. -/
theorem claim_C3_success_merge (ε : Type) (key : String)
    (fields : List (String × JSValue)) (tInv now : Nat) (s : Store)
    (k : String) (v : JSValue)
    (hinv : tInv ≤ now) (hk : List.lookup k fields = some v) :
    (@wrappedAsyncAction ε key (Except.ok (JSValue.obj fields)) now s).1.data k = some v ∧
    (∃ t, (@wrappedAsyncAction ε key (Except.ok (JSValue.obj fields)) now s).1.lastUpdatedStates k
      = some (some t) ∧ tInv ≤ t) ∧
    (setErrorFlag key false (mergeResultStep (JSValue.obj fields) now
      (startInvocation key s))).errorsState key = some false ∧
    (setErrorFlag key false (mergeResultStep (JSValue.obj fields) now
      (startInvocation key s))).loadingStates key = some true ∧
    (@wrappedAsyncAction ε key (Except.ok (JSValue.obj fields)) now s).1
      = setLoadingFlag key false (setErrorFlag key false
          (mergeResultStep (JSValue.obj fields) now (startInvocation key s))) ∧
    (@wrappedAsyncAction ε key (Except.ok (JSValue.obj fields)) now s).1.errorsState key
      = some false ∧
    (@wrappedAsyncAction ε key (Except.ok (JSValue.obj fields)) now s).1.loadingStates key
      = some false := by
  refine ⟨?_, ⟨now, ?_, hinv⟩, ?_, ?_, rfl, ?_, ?_⟩ <;>
    simp [wrappedAsyncAction, settleSuccess, mergeResultStep, setErrorFlag,
      setLoadingFlag, startInvocation, hk]

/-- Witness for C3 at a concrete invocation. -/
theorem claim_C3_success_merge_witness :
    (@wrappedAsyncAction String "getPage"
      (Except.ok (JSValue.obj [("page", JSValue.prim "home")])) 10 demoStore).1.data "page"
      = some (JSValue.prim "home") :=
  (claim_C3_success_merge String "getPage" [("page", JSValue.prim "home")] 7 10 demoStore
    "page" (JSValue.prim "home") (by decide) rfl).1

/-- C4: when a wrapped asynchronous action resolves to null, an array or a
non-object primitive, after settlement every data field and every
lastUpdatedStates entry is unchanged, the busy and error flags of every other
action are unchanged, and only the busy and error flags of this action were
written (both false after settlement). -/
theorem claim_C4_non_object_frame (ε : Type) (key : String) (r : JSValue)
    (now : Nat) (s : Store)
    (hr : r = JSValue.null ∨ (∃ xs, r = JSValue.arr xs) ∨ (∃ p, r = JSValue.prim p)) :
    (∀ k, (@wrappedAsyncAction ε key (Except.ok r) now s).1.data k = s.data k) ∧
    (∀ k, (@wrappedAsyncAction ε key (Except.ok r) now s).1.lastUpdatedStates k
      = s.lastUpdatedStates k) ∧
    (∀ k, k ≠ key →
      (@wrappedAsyncAction ε key (Except.ok r) now s).1.loadingStates k = s.loadingStates k ∧
      (@wrappedAsyncAction ε key (Except.ok r) now s).1.errorsState k = s.errorsState k) ∧
    (@wrappedAsyncAction ε key (Except.ok r) now s).1.loadingStates key = some false ∧
    (@wrappedAsyncAction ε key (Except.ok r) now s).1.errorsState key = some false := by
  have hm : ∀ s2, mergeResultStep r now s2 = s2 := by
    rcases hr with h | ⟨xs, h⟩ | ⟨p, h⟩ <;> subst h <;> intro s2 <;> rfl
  refine ⟨fun k => ?_, fun k => ?_, fun k hk => ⟨?_, ?_⟩, ?_, ?_⟩
  · simp [wrappedAsyncAction, settleSuccess, hm, setErrorFlag, setLoadingFlag,
      startInvocation]
  · simp [wrappedAsyncAction, settleSuccess, hm, setErrorFlag, setLoadingFlag,
      startInvocation]
  · simp [wrappedAsyncAction, settleSuccess, hm, setErrorFlag, setLoadingFlag,
      startInvocation, hk]
  · simp [wrappedAsyncAction, settleSuccess, hm, setErrorFlag, setLoadingFlag,
      startInvocation, hk]
  · simp [wrappedAsyncAction, settleSuccess, hm, setErrorFlag, setLoadingFlag,
      startInvocation]
  · simp [wrappedAsyncAction, settleSuccess, hm, setErrorFlag, setLoadingFlag,
      startInvocation]

/-- Witness for C4 at a concrete invocation resolving to null. -/
theorem claim_C4_non_object_frame_witness :
    (@wrappedAsyncAction String "getPage" (Except.ok JSValue.null) 10 demoStore).1.lastUpdatedStates "page"
      = demoStore.lastUpdatedStates "page" :=
  (claim_C4_non_object_frame String "getPage" JSValue.null 10 demoStore (Or.inl rfl)).2.1 "page"

/-- C5: the staleness predicate answers true exactly when the last-updated
value of the field is absent or null, or when now minus the last-updated time
strictly exceeds the window T (so equality with T is not stale); with no
options the window defaults to 300000 milliseconds and the hook behaves as if
that window had been passed. -/
theorem claim_C5_staleness (s : Store) (key : String) (T now : Nat) :
    ((createFreshnessHook s key (some ⟨some T⟩)).1 now = true ↔
      s.lastUpdatedStates key = none ∨ s.lastUpdatedStates key = some none ∨
        ∃ t, s.lastUpdatedStates key = some (some t) ∧ (now : Int) - t > T) ∧
    resolveStaleTime none = 300000 ∧
    (createFreshnessHook s key none).1 now
      = (createFreshnessHook s key (some ⟨some 300000⟩)).1 now := by
  refine ⟨?_, rfl, rfl⟩
  rcases h : s.lastUpdatedStates key with _ | lu
  · simp [createFreshnessHook, isDataStaleAt, h]
  · rcases lu with _ | t
    · simp [createFreshnessHook, isDataStaleAt, h]
    · simp [createFreshnessHook, isDataStaleAt, resolveStaleTime, h]

/-- Witness for C5 at a concrete store, window and call time. -/
theorem claim_C5_staleness_witness :
    (createFreshnessHook demoStore "page" (some ⟨some 10⟩)).1 16 = true :=
  (claim_C5_staleness demoStore "page" 10 16).1.mpr
    (Or.inr (Or.inr ⟨5, rfl, by decide⟩))

/-- A concrete run for the freshness scenario: the initial store of a model
with one data field page and one action getPage. -/
def freshnessScenarioStart : Store :=
  initialModelStore [("page", JSValue.null)] ["getPage"]

/-- The same store after getPage resolves to an object patching page at
time 100. -/
def freshnessScenarioUpdated : Store :=
  (@wrappedAsyncAction String "getPage"
    (Except.ok (JSValue.obj [("page", JSValue.prim "home")])) 100
    freshnessScenarioStart).1

/-- C6 counterexample: the staleness predicate does not re-read
lastUpdatedStates at predicate-call time.  The hook is created on the initial
store (page never updated), then the store is updated at time 100; calling
the predicate at time 100 still answers true (from the value captured when
the hook ran), while the staleness of the value actually in the store at call
time is false, and the store really does hold timestamp 100 for page then. -/
theorem claim_C6_counterexample :
    (createFreshnessHook freshnessScenarioStart "page" none).1 100 = true ∧
    specIsStaleRereading freshnessScenarioUpdated "page" (resolveStaleTime none) 100 = false ∧
    freshnessScenarioUpdated.lastUpdatedStates "page" = some (some 100) := by
  refine ⟨rfl, rfl, rfl⟩

/-- C6 amended: each call of the staleness predicate has no effect on the
store (the hook is a pure function returning no store), recomputes staleness
from the now supplied at that call, but evaluates it against the
lastUpdatedStates value for the queried field read once, when the hook itself
ran, not re-read from the store at predicate-call time; the hook also returns
that captured value. -/
theorem claim_C6_captured_not_reread (s : Store) (key : String)
    (options : Option FreshnessOptions) (now : Nat) :
    (createFreshnessHook s key options).2 = s.lastUpdatedStates key ∧
    (createFreshnessHook s key options).1 now
      = isDataStaleAt (s.lastUpdatedStates key) (resolveStaleTime options) now ∧
    ∀ s2, s2.lastUpdatedStates key = s.lastUpdatedStates key →
      (createFreshnessHook s2 key options).1 now
        = (createFreshnessHook s key options).1 now := by
  refine ⟨rfl, rfl, fun s2 h => ?_⟩
  simp [createFreshnessHook, h]

/-- Witness for C6 amended at the concrete freshness scenario. -/
theorem claim_C6_captured_not_reread_witness :
    (createFreshnessHook freshnessScenarioStart "page" none).1 100
      = isDataStaleAt (freshnessScenarioStart.lastUpdatedStates "page")
          (resolveStaleTime none) 100 :=
  (claim_C6_captured_not_reread freshnessScenarioStart "page" none 100).2.1

/-- C7: reset restores every data field of the initial snapshot to its
initial value, from any store state whatsoever. -/
theorem claim_C7_reset_restores_data (initialDataState : List (String × JSValue))
    (s : Store) (k : String) (v : JSValue)
    (hk : List.lookup k initialDataState = some v) :
    (reset initialDataState s).data k = some v := by
  simp [reset, hk]

/-- Witness for C7 at a concrete snapshot and store. -/
theorem claim_C7_reset_restores_data_witness :
    (reset [("page", JSValue.null)] demoStore).data "page" = some JSValue.null :=
  claim_C7_reset_restores_data [("page", JSValue.null)] demoStore "page"
    JSValue.null rfl

/-- C8 counterexample: reset does not restore lastUpdatedStates to null.  In
demoStore the field page was last updated at time 5; after reset with the
original snapshot the entry still reads some (some 5), not the null entry
(some none) the claim requires, and not an absent one either. -/
theorem claim_C8_counterexample :
    (reset [("page", JSValue.null)] demoStore).lastUpdatedStates "page" = some (some 5) ∧
    (some (some 5) : Option (Option Nat)) ≠ some none ∧
    (some (some 5) : Option (Option Nat)) ≠ none := by
  refine ⟨rfl, by decide, by decide⟩

/-- C8 amended: once a lastUpdatedStates entry of a field holds a timestamp,
no wrapped-action invocation ever clears it (it remains a non-null timestamp,
at most overwritten with a newer one), and reset leaves every
lastUpdatedStates entry exactly as it was: it rewrites only the data fields
of the initial snapshot, not the bookkeeping maps. -/
theorem claim_C8_never_cleared (ε : Type) (key : String)
    (outcome : Except ε JSValue) (now : Nat) (s : Store) (k : String) (t : Nat)
    (h : s.lastUpdatedStates k = some (some t)) :
    (∃ u, (wrappedAsyncAction key outcome now s).1.lastUpdatedStates k = some (some u)) ∧
    ∀ initialDataState s2,
      (reset initialDataState s2).lastUpdatedStates k = s2.lastUpdatedStates k := by
  refine ⟨?_, fun initialDataState s2 => rfl⟩
  rcases outcome with e | r
  · exact ⟨t, h⟩
  · rcases r with _ | p | xs | fields
    · exact ⟨t, h⟩
    · exact ⟨t, h⟩
    · exact ⟨t, h⟩
    · by_cases hf : (List.lookup k fields).isSome
      · refine ⟨now, ?_⟩
        simp [wrappedAsyncAction, settleSuccess, mergeResultStep, setErrorFlag,
          setLoadingFlag, startInvocation, hf]
      · refine ⟨t, ?_⟩
        simp [wrappedAsyncAction, settleSuccess, mergeResultStep, setErrorFlag,
          setLoadingFlag, startInvocation, hf, h]

/-- Witness for C8 amended at a concrete failing invocation on demoStore. -/
theorem claim_C8_never_cleared_witness :
    ∃ u, (@wrappedAsyncAction String "getPage" (Except.error "network") 10
      demoStore).1.lastUpdatedStates "page" = some (some u) :=
  (claim_C8_never_cleared String "getPage" (Except.error "network") 10
    demoStore "page" 5 rfl).1

/-- C9 counterexample: the claimed precedence puts the bookkeeping maps and
reset above the wrapped actions, so for an action named loadingStates the
assembled state at key loadingStates should be the bookkeeping map; in the
code the wrapped actions are spread last and win, so that key holds the
wrapped action instead. -/
theorem claim_C9_counterexample :
    assembledState [] ["loadingStates"] "loadingStates"
      = some StoreEntry.wrappedAction ∧
    some StoreEntry.wrappedAction ≠ some StoreEntry.loadingMapEntry := by
  refine ⟨rfl, by simp⟩

/-- C9 amended: the assembled store state is the merge, in precedence from
lowest to highest: initial data fields, bookkeeping maps and reset, wrapped
actions — on a key collision a wrapped action overrides a bookkeeping map or
reset, which overrides an initial data field; the bookkeeping maps are seeded
with false for the busy and error entry of every action and null for the
last-updated entry of every initial data field. -/
theorem claim_C9_assembly_precedence (initialDataState : List (String × JSValue))
    (actionKeys : List String) (k : String) :
    assembledState initialDataState actionKeys k =
      (if actionKeys.contains k then some StoreEntry.wrappedAction
       else
         match bookkeepingEntries k with
         | some e => some e
         | none => (List.lookup k initialDataState).map StoreEntry.dataVal) ∧
    (initialModelStore initialDataState actionKeys).loadingStates k
      = (if actionKeys.contains k then some false else none) ∧
    (initialModelStore initialDataState actionKeys).errorsState k
      = (if actionKeys.contains k then some false else none) ∧
    (initialModelStore initialDataState actionKeys).lastUpdatedStates k
      = (if (List.lookup k initialDataState).isSome then some none else none) := by
  refine ⟨?_, rfl, rfl, rfl⟩
  by_cases hc : actionKeys.contains k = true
  · have hc2 : k ∈ actionKeys := by simpa using hc
    simp [assembledState, overlay, hc2]
  · have hc2 : ¬ k ∈ actionKeys := by simpa using hc
    simp [assembledState, stateWithBase, overlay, hc2]

end ZustandModel
